import Mathlib

/-!
Verification of the ingestion pipeline of the ecommerce-data-eng project.

The development shallowly embeds the Python sources:
  * `src/processors/data_processor.py` — `PostgresDataProcessor`
    (`process_file`, `merge_tables`, `insert_to_table`, `set_up_tables`,
    `generate_manifest_fields`);
  * `src/db/postgres_manager.py` — `PostgresManager`
    (`execute_csv_copy`, `execute_write`, `execute_read`);
  * `src/db/postgres_db.py` — `PostgresDB`
    (singleton construction, `get_connection`, `release_connection`,
    `close_pool`);
  * `src/daemons/daemon.py` — `Daemon.run`.

Rows carry one primary-key column (`pk`), one abstract non-key payload
column (`payload`) and the `processed_at` timestamp that gates the merge.
Relations are lists of rows; the database state bundles the staging,
manifest and target relations of one entity.  Exceptions of the Python
code become explicit outcome values, and the points where the code may
fail (a failing dedup read, a failing COPY, a failing write statement)
become boolean fault flags, so each code path of the source is a branch
of the embedded function.  Log calls are abstracted to the fixed literal
prefixes of the corresponding `logger` calls; interpolated parts are
elided.
-/

namespace EcomIngest

/-- One record of an entity relation: primary-key column, an abstract
non-key payload column, and the `processed_at` timestamp column used by
the merge predicate. -/
structure Row where
  pk : Nat
  payload : Nat
  processed_at : Int
deriving DecidableEq, Repr

/-- One row of the manifest relation, mirroring the dictionary built by
`generate_manifest_fields`: `file_name`, `digest`, `file_size`,
`processed_at`. -/
structure ManifestRow where
  file_name : String
  digest : Nat
  file_size : Nat
  processed_at : Int
deriving DecidableEq, Repr

/-- The database state of one entity: staging (tmp) relation, manifest
relation and target relation. -/
structure DBState where
  staging : List Row
  manifest : List ManifestRow
  target : List Row
deriving DecidableEq, Repr

def emptyState : DBState := ⟨[], [], []⟩

/-!
## The upsert of `merge_tables` (data_processor.py, lines 156-224)

The generated statement is
`INSERT INTO target SELECT * FROM tmp ON CONFLICT (pk) DO UPDATE SET
 <non-key cols> = excluded.<non-key cols>
 WHERE excluded.processed_at > target.processed_at`.
PostgreSQL evaluates the source rows one at a time against the evolving
target: a row whose `pk` is absent is inserted, a row whose `pk` conflicts
updates all non-key columns of the conflicting row exactly when the
incoming `processed_at` is strictly greater.  Since the only key column is
`pk` and the incoming row shares it, a fired update replaces the stored
row by the incoming row.
-/

/-- One source row of the `ON CONFLICT` insert, applied to the target. -/
def upsertRow (target : List Row) (r : Row) : List Row :=
  if target.any (fun t => t.pk == r.pk) then
    target.map (fun t =>
      if t.pk = r.pk ∧ t.processed_at < r.processed_at then r else t)
  else
    target ++ [r]

/-- The whole `INSERT ... ON CONFLICT DO UPDATE ... WHERE` statement:
the staged rows are processed in order against the evolving target. -/
def merge_rows (target staging : List Row) : List Row :=
  staging.foldl upsertRow target

/-- Claim C1: each staged row whose primary key already exists in the
target overwrites the existing row's non-key columns exactly when the
incoming `processed_at` is strictly greater than the existing row's
`processed_at`, leaves the existing row untouched otherwise, and rows
whose primary key is absent are inserted; the batch is evaluated per
row (a left fold of the per-row upsert). -/
theorem merge_upsert_per_row (target : List Row) (r : Row)
    (huniq : target.Pairwise (fun a b => a.pk ≠ b.pk)) :
    (∀ batch, merge_rows target batch = batch.foldl upsertRow target) ∧
    ((∀ t ∈ target, t.pk ≠ r.pk) → upsertRow target r = target ++ [r]) ∧
    (∀ t ∈ target, t.pk = r.pk → t.processed_at < r.processed_at →
        upsertRow target r
          = target.map (fun u => if u.pk = r.pk then r else u)) ∧
    (∀ t ∈ target, t.pk = r.pk → ¬ t.processed_at < r.processed_at →
        upsertRow target r = target) := by
  have huniq_mem : ∀ u ∈ target, ∀ t ∈ target, u.pk = t.pk → u = t := by
    intro u hu t ht hpk
    by_contra hne
    exact huniq.forall (fun _ _ h => Ne.symm h) hu ht hne hpk
  refine ⟨fun _ => rfl, ?_, ?_, ?_⟩
  · intro habs
    have hany : target.any (fun t => t.pk == r.pk) = false := by
      simp only [List.any_eq_false, beq_iff_eq]
      intro t ht
      exact habs t ht
    simp [upsertRow, hany]
  · intro t ht htpk hlt
    have hany : target.any (fun u => u.pk == r.pk) = true :=
      List.any_eq_true.mpr ⟨t, ht, by simp [htpk]⟩
    simp only [upsertRow, hany, if_true]
    apply List.map_congr_left
    intro u hu
    by_cases hupk : u.pk = r.pk
    · have hut : u = t := huniq_mem u hu t ht (hupk.trans htpk.symm)
      rw [if_pos ⟨hupk, hut ▸ hlt⟩, if_pos hupk]
    · rw [if_neg (fun hc => hupk hc.1), if_neg hupk]
  · intro t ht htpk hnlt
    have hany : target.any (fun u => u.pk == r.pk) = true :=
      List.any_eq_true.mpr ⟨t, ht, by simp [htpk]⟩
    simp only [upsertRow, hany, if_true]
    have : target.map (fun u =>
        if u.pk = r.pk ∧ u.processed_at < r.processed_at then r else u)
        = target.map (fun u => u) := by
      apply List.map_congr_left
      intro u hu
      by_cases hupk : u.pk = r.pk
      · have hut : u = t := huniq_mem u hu t ht (hupk.trans htpk.symm)
        rw [if_neg (fun hc => hnlt (hut ▸ hc.2))]
      · rw [if_neg (fun hc => hupk hc.1)]
    rw [this, List.map_id']

/-- Witness for C1 at a concrete target and incoming row: the stored row
with `pk = 1` and `processed_at = 100` is overwritten by an incoming row
with `processed_at = 200`. -/
theorem merge_upsert_per_row_witness :
    upsertRow [⟨1, 10, 100⟩] ⟨1, 20, 200⟩
      = List.map (fun u => if u.pk = 1 then (⟨1, 20, 200⟩ : Row) else u)
          [⟨1, 10, 100⟩] :=
  (merge_upsert_per_row [⟨1, 10, 100⟩] ⟨1, 20, 200⟩
      (List.pairwise_singleton _ _)).2.2.1
    ⟨1, 10, 100⟩ (by simp) rfl (by decide)

/-!
## The connection pool (postgres_db.py)

`PostgresDB` wraps a `ThreadedConnectionPool` behind a counting semaphore.
The pool state records whether `_pool` is set (`live`), the semaphore
counter (`permits`) and the number of connections currently held by the
underlying pool (`pooled`).  The semaphore blocking in `acquire` is
modelled as an explicit `blocked` outcome when no permit is available,
and a raised Python exception as an explicit error outcome.  Each
operation also reports the ordered trace of semaphore / underlying-pool
events it performed, so the order "permit acquired before the draw,
released before the failure propagates" is part of the model.
-/

inductive PoolEvent where
  | semAcquire
  | semRelease
  | poolGetconn
  | poolPutconn
deriving DecidableEq, Repr

structure PoolState where
  live : Bool
  permits : Nat
  pooled : Nat
deriving DecidableEq, Repr

inductive GetOutcome where
  | gotConn
  | errNotInitialised
  | blocked
  | errDraw
deriving DecidableEq, Repr

structure GetResult where
  outcome : GetOutcome
  state : PoolState
  events : List PoolEvent
deriving DecidableEq, Repr

/-- `PostgresDB.get_connection` (postgres_db.py, lines 95-114): raise
`ConnectionError` when `_pool` is `None`; otherwise `semaphore.acquire()`
(blocks when no permit is free), then `self._pool.getconn()`; when the
draw raises, release the permit and re-raise.  `drawFails` injects a
failing `getconn`; a successful draw takes a free pooled connection (the
underlying pool opens a fresh one when none is idle, hence the
truncating subtraction). -/
def get_connection (drawFails : Bool) (s : PoolState) : GetResult :=
  if !s.live then ⟨.errNotInitialised, s, []⟩
  else if s.permits = 0 then ⟨.blocked, s, []⟩
  else
    let s1 : PoolState := { s with permits := s.permits - 1 }
    if drawFails then
      ⟨.errDraw, { s1 with permits := s1.permits + 1 },
        [.semAcquire, .poolGetconn, .semRelease]⟩
    else
      ⟨.gotConn, { s1 with pooled := s1.pooled - 1 },
        [.semAcquire, .poolGetconn]⟩

inductive ReleaseOutcome where
  | ok
  | raisedPut
  | noop
deriving DecidableEq, Repr

structure ReleaseResult where
  outcome : ReleaseOutcome
  state : PoolState
  events : List PoolEvent
deriving DecidableEq, Repr

/-- `PostgresDB.release_connection` (postgres_db.py, lines 116-130): when
`_pool` is set, `putconn` runs inside a `try` whose `finally` releases one
semaphore permit, and a raised `putconn` is re-raised after the `finally`;
when `_pool` is `None` the whole body is skipped.  `putFails` injects a
failing `putconn`. -/
def release_connection (putFails : Bool) (s : PoolState) : ReleaseResult :=
  if s.live then
    if putFails then
      ⟨.raisedPut, { s with permits := s.permits + 1 },
        [.poolPutconn, .semRelease]⟩
    else
      ⟨.ok, { s with permits := s.permits + 1, pooled := s.pooled + 1 },
        [.poolPutconn, .semRelease]⟩
  else ⟨.noop, s, []⟩

/-- `PostgresDB.close_pool` (postgres_db.py, lines 132-145): when `_pool`
is set, close every pooled connection and, in the `finally`, clear
`_pool` (and `_initialized`); otherwise do nothing. -/
def close_pool (s : PoolState) : PoolState :=
  if s.live then { s with live := false, pooled := 0 } else s

/-!
## Singleton construction (postgres_db.py, lines 21-78)

`__new__` allocates the single class instance under double-checked
locking; `__init__` returns immediately when `_initialized` is already
true, else stores the configuration, creates the semaphore with
`max_conn` permits and the `ThreadedConnectionPool` with `min_conn` warm
connections, and sets `_initialized`.  The class attribute `_instance`
is the `Option DBInstance` argument; `freshId` tags the identity of a
newly allocated object.
-/

structure DBConfig where
  dbname : String
  user : String
  host : String
  port : Nat
  minConn : Nat
  maxConn : Nat
deriving DecidableEq, Repr

structure DBInstance where
  objId : Nat
  config : DBConfig
  pool : PoolState
  initialized : Bool
deriving DecidableEq, Repr

def initFields (objId : Nat) (cfg : DBConfig) : DBInstance :=
  { objId := objId, config := cfg,
    pool := { live := true, permits := cfg.maxConn, pooled := cfg.minConn },
    initialized := true }

/-- `PostgresDB(cfg)`: `__new__` followed by `__init__`.  Returns the
instance the expression evaluates to and the new value of
`cls._instance`. -/
def postgresDB_construct (cfg : DBConfig) (freshId : Nat)
    (instSlot : Option DBInstance) : DBInstance × Option DBInstance :=
  match instSlot with
  | none =>
      let inst := initFields freshId cfg
      (inst, some inst)
  | some inst =>
      if inst.initialized then (inst, some inst)
      else
        let inst2 := initFields inst.objId cfg
        (inst2, some inst2)

/-!
## The manager and the processor (postgres_manager.py, data_processor.py)

`process_file` is driven by fault flags naming the failure points of the
source: a raising dedup read (`readFails`), a raising `copy_expert`
(`copyFails`, malformed rows), a raising manifest insert
(`manifestWriteFails`) and a raising merge statement (`mergeWriteFails`).
The embedding follows the exception flow of the source precisely:

  * `execute_read` catches the cursor exception, logs it and falls off
    the end of the function, returning `None`; `process_file` then
    evaluates `results[0]`, raising `TypeError` before any write.
  * `execute_csv_copy` catches the `copy_expert` exception, logs it and
    still runs `conn.commit()` (the source carries a TODO admitting the
    failure should stop the process); a failed COPY inserts no rows, a
    successful COPY appends the file's rows — nothing truncates the
    staging relation per file.
  * `execute_write` catches the execution exception, logs, rolls the
    statement back and returns normally, so its caller cannot observe
    the failure.
-/

structure FileInput where
  digest : Nat
  name : String
  size : Nat
  rows : List Row
deriving DecidableEq, Repr

structure Faults where
  readFails : Bool
  copyFails : Bool
  manifestWriteFails : Bool
  mergeWriteFails : Bool
deriving DecidableEq, Repr

def noFaults : Faults := ⟨false, false, false, false⟩

/-- Terminal states of `process_file` for one file: the skip branch, a
normal return from the processing branch, or the `TypeError` raised at
`results[0]` when the dedup read failed. -/
inductive Outcome where
  | skipped
  | completed
  | raisedTypeError
deriving DecidableEq, Repr

structure RunResult where
  outcome : Outcome
  state : DBState
  logs : List String
deriving DecidableEq, Repr

/-- `PostgresManager.execute_read` applied to the `EXISTS` digest query
(postgres_manager.py, lines 89-126).  On success the scalar row holds
whether a manifest row with this digest exists; on a raised execution
the except branch logs and the function returns `None`. -/
def execute_read_digest (fails : Bool) (manifest : List ManifestRow)
    (digest : Nat) : Option Bool × List String :=
  if fails then (none, ["Error Occurred:"])
  else (some (manifest.any (fun m => m.digest == digest)), [])

/-- `PostgresManager.execute_csv_copy` (postgres_manager.py, lines
46-60): COPY appends the file's rows to the staging relation; when
`copy_expert` raises, the exception is swallowed, logged, and
`conn.commit()` still runs with no rows inserted. -/
def execute_csv_copy (copyFails : Bool) (rows : List Row) (s : DBState) :
    DBState × List String :=
  if copyFails then (s, ["Copy CSV Error Occurred:"])
  else ({ s with staging := s.staging ++ rows }, [])

/-- `PostgresManager.execute_write` (postgres_manager.py, lines 62-87):
run one statement, commit on success; on a raised execution log, roll
back, and return normally. -/
def execute_write (effect : DBState → DBState) (fails : Bool)
    (s : DBState) : DBState × List String :=
  if fails then
    (s, ["Error Occurred:", "Rolling back transaction",
         "Transaction rolled back"])
  else (effect s, ["Rows Inserted"])

/-- `PostgresDataProcessor.generate_manifest_fields` (data_processor.py,
lines 43-67): file name, digest, size, and the wall-clock timestamp at
processing time (`now`). -/
def generate_manifest_fields (f : FileInput) (now : Int) : ManifestRow :=
  { file_name := f.name, digest := f.digest, file_size := f.size,
    processed_at := now }

/-- `PostgresDataProcessor.insert_to_table` on the manifest relation
(data_processor.py, lines 133-154): one `INSERT` through
`execute_write`. -/
def insert_to_table (m : ManifestRow) (fails : Bool) (s : DBState) :
    DBState × List String :=
  execute_write (fun st => { st with manifest := st.manifest ++ [m] })
    fails s

/-- `PostgresDataProcessor.merge_tables` (data_processor.py, lines
156-224): the upsert statement merging the whole staging relation into
the target, through `execute_write`. -/
def merge_tables (fails : Bool) (s : DBState) : DBState × List String :=
  execute_write (fun st => { st with target := merge_rows st.target st.staging })
    fails s

/-- `PostgresDataProcessor.process_file` (data_processor.py, lines
81-131): dedup read, then — when the digest is new — COPY into staging,
manifest insert, merge; when the digest exists, log and return; when the
read failed, `results[0]` raises before any write. -/
def process_file (f : FileInput) (now : Int) (fl : Faults) (s : DBState) :
    RunResult :=
  match execute_read_digest fl.readFails s.manifest f.digest with
  | (none, lg) =>
      ⟨.raisedTypeError, s, "Generating Digest..." :: lg⟩
  | (some true, lg) =>
      ⟨.skipped, s,
        "Generating Digest..." :: lg ++ ["Batch already processed"]⟩
  | (some false, lg) =>
      let p1 := execute_csv_copy fl.copyFails f.rows s
      let m := generate_manifest_fields f now
      let p2 := insert_to_table m fl.manifestWriteFails p1.1
      let p3 := merge_tables fl.mergeWriteFails p2.1
      ⟨.completed, p3.1,
        "Generating Digest..." :: lg
          ++ ["Processing new batch..."] ++ p1.2 ++ p2.2 ++ p3.2⟩

/-- Result of a Python call that can raise `TypeError` for a missing
required positional argument. -/
inductive PyResult (α : Type) where
  | ok (a : α)
  | typeError
deriving DecidableEq, Repr

/-- The two metadata objects held by a `ProcessorConfig`
(processor_config.py): the staging-table metadata and the
manifest-table metadata. -/
inductive MetaKind where
  | tmpMeta
  | manifestMeta
deriving DecidableEq, Repr

/-- `MetaData.drop_all(bind=engine)`: removes the tables of the
metadata; dropping the staging metadata discards all staged rows,
dropping the manifest metadata all manifest rows. -/
def metadata_drop (m : MetaKind) (s : DBState) : DBState :=
  match m with
  | .tmpMeta => { s with staging := [] }
  | .manifestMeta => { s with manifest := [] }

/-- `MetaData.create_all(bind=engine)`: creates only the tables that are
absent (`checkfirst`), preserving the rows of existing ones. -/
def metadata_create (_m : MetaKind) (s : DBState) : DBState := s

/-- `PostgresManager.drop_table(self, table_metadata, engine)`
(postgres_manager.py, lines 32-37): `engine` is a required positional
argument, so a call site that omits it raises `TypeError` before the
body runs; with it supplied the body runs `table_metadata.drop_all`. -/
def drop_table (m : MetaKind) (engineSupplied : Bool) (s : DBState) :
    PyResult DBState :=
  if engineSupplied then .ok (metadata_drop m s) else .typeError

/-- `PostgresManager.create_table(self, table_metadata, engine)`
(postgres_manager.py, lines 39-44): same required `engine` argument;
with it supplied the body runs `table_metadata.create_all`. -/
def create_table (m : MetaKind) (engineSupplied : Bool) (s : DBState) :
    PyResult DBState :=
  if engineSupplied then .ok (metadata_create m s) else .typeError

/-- `PostgresDataProcessor.set_up_tables` (data_processor.py, lines
69-79): `drop_table(self.config.tmp_metadata)`,
`create_table(self.config.tmp_metadata)`,
`create_table(self.config.manifest_metadata)` — each call passes the
metadata only and omits the manager methods' required `engine`
argument, so the first call raises `TypeError` and no table is ever
dropped or created. -/
def set_up_tables (s : DBState) : PyResult DBState :=
  match drop_table .tmpMeta false s with
  | .typeError => .typeError
  | .ok s1 =>
    match create_table .tmpMeta false s1 with
    | .typeError => .typeError
    | .ok s2 => create_table .manifestMeta false s2

/-- `Daemon.run` (daemon.py, lines 25-52), restricted to its effect on
the database: `processor.set_up_tables()` runs once at startup, before
the observer is scheduled and with no exception handler around it, so a
`TypeError` raised there propagates and no file event is ever handled;
only after a successful set-up would each detected file be processed in
arrival order. -/
def daemon_run (files : List (FileInput × Int × Faults)) (s : DBState) :
    PyResult DBState :=
  match set_up_tables s with
  | .typeError => .typeError
  | .ok s0 =>
      .ok (files.foldl
        (fun st fe => (process_file fe.1 fe.2.1 fe.2.2 st).state) s0)

/-- Claim C5: on a live pool, `get_connection` acquires the semaphore
permit before drawing from the underlying pool, and when the draw raises
the permit is released before the exception propagates, so the permit
count is unchanged and a subsequent call still succeeds. -/
theorem get_connection_no_permit_leak (s : PoolState)
    (hlive : s.live = true) (hp : 0 < s.permits) :
    (get_connection false s).events = [.semAcquire, .poolGetconn] ∧
    (get_connection true s).events
      = [.semAcquire, .poolGetconn, .semRelease] ∧
    (get_connection true s).outcome = .errDraw ∧
    (get_connection true s).state.permits = s.permits ∧
    (get_connection false (get_connection true s).state).outcome
      = .gotConn := by
  have hne : s.permits ≠ 0 := Nat.pos_iff_ne_zero.mp hp
  refine ⟨?_, ?_, ?_, ?_, ?_⟩ <;>
    simp [get_connection, hlive, hne, Nat.succ_pred_eq_of_pos hp,
      Nat.sub_add_cancel hp]

/-- Witness for C5 at a live pool with 3 permits and 2 idle
connections. -/
theorem get_connection_no_permit_leak_witness :
    (get_connection false ⟨true, 3, 2⟩).events
        = [.semAcquire, .poolGetconn] ∧
    (get_connection true ⟨true, 3, 2⟩).events
        = [.semAcquire, .poolGetconn, .semRelease] ∧
    (get_connection true ⟨true, 3, 2⟩).outcome = .errDraw ∧
    (get_connection true ⟨true, 3, 2⟩).state.permits = 3 ∧
    (get_connection false (get_connection true ⟨true, 3, 2⟩).state).outcome
        = .gotConn :=
  get_connection_no_permit_leak ⟨true, 3, 2⟩ rfl (by decide)

/-- Claim C6: on a live pool, `release_connection` releases exactly one
semaphore permit whether or not returning the connection raises, the
release happens on the cleanup path after the `putconn` attempt, and a
raised `putconn` still propagates. -/
theorem release_connection_always_releases (s : PoolState) (putFails : Bool)
    (hlive : s.live = true) :
    (release_connection putFails s).state.permits = s.permits + 1 ∧
    (release_connection putFails s).events = [.poolPutconn, .semRelease] ∧
    (putFails = true →
      (release_connection putFails s).outcome = .raisedPut) := by
  cases putFails <;> simp [release_connection, hlive]

/-- Witness for C6 on a live pool with a failing `putconn`. -/
theorem release_connection_always_releases_witness :
    (release_connection true ⟨true, 2, 1⟩).state.permits = 3 ∧
    (release_connection true ⟨true, 2, 1⟩).events
        = [.poolPutconn, .semRelease] ∧
    (true = true → (release_connection true ⟨true, 2, 1⟩).outcome
        = .raisedPut) :=
  release_connection_always_releases ⟨true, 2, 1⟩ true rfl

/-- Claim C8: constructing `PostgresDB` again while the singleton is
already initialized, with any (possibly different) arguments, returns
the same instance — same identity, same pool, unchanged configuration
fields — without erroring or reinitializing. -/
theorem singleton_reinit_noop (inst : DBInstance) (cfg2 : DBConfig)
    (freshId : Nat) (hinit : inst.initialized = true) :
    postgresDB_construct cfg2 freshId (some inst) = (inst, some inst) := by
  simp [postgresDB_construct, hinit]

/-- Witness for C8: a second construction with different credentials and
pool sizes returns the first instance untouched. -/
theorem singleton_reinit_noop_witness :
    postgresDB_construct ⟨"other", "u2", "h2", 5433, 2, 9⟩ 42
        (some (initFields 7 ⟨"orders", "u", "h", 5432, 1, 5⟩))
      = (initFields 7 ⟨"orders", "u", "h", 5432, 1, 5⟩,
         some (initFields 7 ⟨"orders", "u", "h", 5432, 1, 5⟩)) :=
  singleton_reinit_noop (initFields 7 ⟨"orders", "u", "h", 5432, 1, 5⟩)
    ⟨"other", "u2", "h2", 5433, 2, 9⟩ 42 rfl

/-- Claim C10: after `close_pool`, `release_connection` is a silent
no-op: the `if self._pool` guard is false, so the connection is not
returned to any pool, no semaphore permit is released, no event happens
and no error is raised. -/
theorem release_after_close_pool_noop (s : PoolState) (putFails : Bool) :
    release_connection putFails (close_pool s)
      = ⟨.noop, close_pool s, []⟩ := by
  by_cases hlive : s.live = true <;>
    simp [close_pool, release_connection, hlive]

/-- Claim C2: after a first successful processing of a file, running
`process_file` again on the same bytes (same digest) finds the digest in
the manifest, terminates as skipped with "Batch already processed"
logged, performs no writes (the whole database state, in particular the
staging and target relations, is unchanged), and exactly one manifest
row carries that digest. -/
theorem process_file_dedup_idempotent (f : FileInput) (now now2 : Int)
    (fl2 : Faults) (s : DBState)
    (hfresh : s.manifest.countP (fun m => m.digest == f.digest) = 0)
    (hread2 : fl2.readFails = false) :
    (process_file f now2 fl2
        (process_file f now noFaults s).state).outcome = .skipped ∧
    "Batch already processed"
      ∈ (process_file f now2 fl2
          (process_file f now noFaults s).state).logs ∧
    (process_file f now2 fl2 (process_file f now noFaults s).state).state
      = (process_file f now noFaults s).state ∧
    (process_file f now noFaults s).state.manifest.countP
      (fun m => m.digest == f.digest) = 1 := by
  have hall : ∀ m ∈ s.manifest, ¬ (m.digest == f.digest) = true :=
    List.countP_eq_zero.mp hfresh
  have hany0 : s.manifest.any (fun m => m.digest == f.digest) = false :=
    List.any_eq_false.mpr hall
  have hs1 : (process_file f now noFaults s).state
      = ⟨s.staging ++ f.rows,
         s.manifest ++ [generate_manifest_fields f now],
         merge_rows s.target (s.staging ++ f.rows)⟩ := by
    simp [process_file, execute_read_digest, noFaults, hany0,
      execute_csv_copy, insert_to_table, merge_tables, execute_write]
  have hany1 : (s.manifest ++ [generate_manifest_fields f now]).any
      (fun m => m.digest == f.digest) = true := by
    simp [generate_manifest_fields]
  refine ⟨?_, ?_, ?_, ?_⟩
  · rw [hs1]
    simp [process_file, execute_read_digest, hread2, hany1]
  · rw [hs1]
    simp [process_file, execute_read_digest, hread2, hany1]
  · rw [hs1]
    simp [process_file, execute_read_digest, hread2, hany1]
  · rw [hs1]
    simp [List.countP_append, hfresh, List.countP_cons,
      generate_manifest_fields]

/-- Witness for C2: a concrete file processed twice from the empty
state is skipped the second time and owns exactly one manifest row. -/
theorem process_file_dedup_idempotent_witness :
    (process_file ⟨5, "a", 4, [⟨1, 10, 100⟩]⟩ 300 noFaults
        (process_file ⟨5, "a", 4, [⟨1, 10, 100⟩]⟩ 200 noFaults
          emptyState).state).outcome = .skipped ∧
    (process_file ⟨5, "a", 4, [⟨1, 10, 100⟩]⟩ 200 noFaults
        emptyState).state.manifest.countP
      (fun m => m.digest == (5 : Nat)) = 1 :=
  ⟨(process_file_dedup_idempotent ⟨5, "a", 4, [⟨1, 10, 100⟩]⟩ 200 300
      noFaults emptyState rfl rfl).1,
   (process_file_dedup_idempotent ⟨5, "a", 4, [⟨1, 10, 100⟩]⟩ 200 300
      noFaults emptyState rfl rfl).2.2.2⟩

/-- Claim C3, evaluated at the failing input: the staging relation holds
a leftover row, the arriving file's COPY raises (malformed rows), yet
`process_file` completes normally — no rollback happens, the manifest
row for the file's digest is inserted and persists, and the merge
executes against the stale staging contents (the leftover row lands in
the target).  This contradicts the claimed abort-and-rollback; the
source itself carries a TODO at the swallowed COPY exception
(postgres_manager.py, line 58) admitting the process should not
proceed. -/
theorem copy_failure_still_records_and_merges :
    process_file ⟨7, "bad", 9, [⟨2, 20, 150⟩]⟩ 500
        ⟨false, true, false, false⟩ ⟨[⟨1, 10, 100⟩], [], []⟩
      = ⟨.completed,
         ⟨[⟨1, 10, 100⟩], [⟨"bad", 7, 9, 500⟩], [⟨1, 10, 100⟩]⟩,
         ["Generating Digest...", "Processing new batch...",
          "Copy CSV Error Occurred:", "Rows Inserted", "Rows Inserted"]⟩ := by
  decide

/-- Claim C4 as stated is false on two counts: starting the ingestion
lifecycle raises `TypeError` inside `set_up_tables` (its
`drop_table`/`create_table` calls omit the manager methods' required
`engine` argument), so the staging relation is never dropped or
recreated and the arriving file is never processed; and a bulk load
into a staging relation that already holds a row leaves both rows — not
exactly the current file's rows — at merge time. -/
theorem staging_overwrite_counterexample :
    daemon_run [(⟨2, "b", 4, [⟨2, 20, 200⟩]⟩, 200, noFaults)] emptyState
      = .typeError ∧
    (process_file ⟨2, "b", 4, [⟨2, 20, 200⟩]⟩ 200 noFaults
        ⟨[⟨1, 10, 100⟩], [], []⟩).state.staging
      ≠ [⟨2, 20, 200⟩] := by
  decide

/-- Claim C4 (amended): `Daemon.run` invokes `set_up_tables` once per
ingestion lifecycle start (not per file), but that call raises
`TypeError` — already its first call, `drop_table` without the required
`engine` argument, raises — so the staging relation is never dropped or
recreated and the daemon processes no file; and within `process_file`
each file's bulk load APPENDS its rows to the staging relation rather
than overwriting it, so at merge time the staging relation contains
every row loaded since the staging relation was last empty, the current
file's rows last, and the merge consumes that accumulated staging. -/
theorem setup_typeerror_and_load_appends (s st : DBState) (f : FileInput)
    (now : Int) (files : List (FileInput × Int × Faults))
    (hfresh : st.manifest.any (fun m => m.digest == f.digest) = false) :
    drop_table .tmpMeta false s = .typeError ∧
    set_up_tables s = .typeError ∧
    daemon_run files s = .typeError ∧
    (process_file f now noFaults st).state.staging = st.staging ++ f.rows ∧
    (process_file f now noFaults st).state.target
      = merge_rows st.target (st.staging ++ f.rows) := by
  refine ⟨rfl, rfl, rfl, ?_, ?_⟩ <;>
    simp [process_file, execute_read_digest, noFaults, hfresh,
      execute_csv_copy, insert_to_table, merge_tables, execute_write]

/-- Witness for the amended C4: the lifecycle start raises at a concrete
state, and loading a concrete fresh file into a staging relation that
already holds a row appends rather than overwrites. -/
theorem setup_typeerror_and_load_appends_witness :
    set_up_tables emptyState = .typeError ∧
    (process_file ⟨2, "b", 4, [⟨2, 20, 200⟩]⟩ 200 noFaults
        ⟨[⟨1, 10, 100⟩], [], []⟩).state.staging
      = [⟨1, 10, 100⟩] ++ [⟨2, 20, 200⟩] :=
  ⟨(setup_typeerror_and_load_appends emptyState ⟨[⟨1, 10, 100⟩], [], []⟩
      ⟨2, "b", 4, [⟨2, 20, 200⟩]⟩ 200 [] rfl).2.1,
   (setup_typeerror_and_load_appends emptyState ⟨[⟨1, 10, 100⟩], [], []⟩
      ⟨2, "b", 4, [⟨2, 20, 200⟩]⟩ 200 [] rfl).2.2.2.1⟩

/-- Claim C7: when the dedup-check read fails, the file is not processed
(fail-closed): `execute_read` swallows the error, logs it and returns
`None`, and `process_file` raises at `results[0]` before any write — no
staging load, no manifest insert, no merge, state unchanged, failure
logged, terminal failed state. -/
theorem read_failure_fail_closed (f : FileInput) (now : Int) (fl : Faults)
    (s : DBState) (h : fl.readFails = true) :
    process_file f now fl s
      = ⟨.raisedTypeError, s,
         ["Generating Digest...", "Error Occurred:"]⟩ := by
  simp [process_file, execute_read_digest, h]

/-- Witness for C7 at a concrete file and a failing read. -/
theorem read_failure_fail_closed_witness :
    process_file ⟨9, "r", 4, [⟨4, 40, 100⟩]⟩ 100
        ⟨true, false, false, false⟩ emptyState
      = ⟨.raisedTypeError, emptyState,
         ["Generating Digest...", "Error Occurred:"]⟩ :=
  read_failure_fail_closed ⟨9, "r", 4, [⟨4, 40, 100⟩]⟩ 100
    ⟨true, false, false, false⟩ emptyState rfl

/-- Claim C9: `execute_write` never propagates a query failure — it
rolls back, logs and returns normally with the state unchanged — so
`process_file` completes with the same outcome for every combination of
write faults; in particular a file whose merge fails keeps its
already-committed manifest row while the target is untouched, and every
later delivery of the same bytes (any state whose manifest holds the
digest, read not failing) is skipped with no writes. -/
theorem execute_write_never_propagates (eff : DBState → DBState)
    (s0 : DBState) (f : FileInput) (now : Int) (s : DBState)
    (hfresh : s.manifest.any (fun m => m.digest == f.digest) = false) :
    execute_write eff true s0
      = (s0, ["Error Occurred:", "Rolling back transaction",
              "Transaction rolled back"]) ∧
    (∀ fl : Faults, fl.readFails = false →
      (process_file f now fl s).outcome = .completed) ∧
    (process_file f now ⟨false, false, false, true⟩ s).state.target
      = s.target ∧
    (process_file f now ⟨false, false, false, true⟩ s).state.manifest.any
      (fun m => m.digest == f.digest) = true ∧
    (∀ (s2 : DBState) (now2 : Int) (fl2 : Faults),
      fl2.readFails = false →
      s2.manifest.any (fun m => m.digest == f.digest) = true →
      (process_file f now2 fl2 s2).outcome = .skipped ∧
      (process_file f now2 fl2 s2).state = s2) := by
  refine ⟨rfl, ?_, ?_, ?_, ?_⟩
  · intro fl hfl
    simp [process_file, execute_read_digest, hfl, hfresh]
  · simp [process_file, execute_read_digest, hfresh,
      execute_csv_copy, insert_to_table, merge_tables, execute_write]
  · simp [process_file, execute_read_digest, hfresh,
      execute_csv_copy, insert_to_table, merge_tables, execute_write,
      generate_manifest_fields]
  · intro s2 now2 fl2 hfl2 hmem
    constructor <;> simp [process_file, execute_read_digest, hfl2, hmem]

/-- Witness for C9: a concrete file whose merge statement fails still
gets its manifest row. -/
theorem execute_write_never_propagates_witness :
    emptyState.manifest.any (fun m => m.digest == (3 : Nat)) = false ∧
    (process_file ⟨3, "c", 4, [⟨3, 30, 300⟩]⟩ 400
        ⟨false, false, false, true⟩ emptyState).state.manifest.any
      (fun m => m.digest == (3 : Nat)) = true :=
  ⟨rfl,
   (execute_write_never_propagates id emptyState
      ⟨3, "c", 4, [⟨3, 30, 300⟩]⟩ 400 emptyState rfl).2.2.2.1⟩

end EcomIngest
